import Mathlib

/-!
Verification development for a command-line futures-testnet trading bot
(`binance_testnet_bot.py`). The program is a facade (`BasicBot`) over an
exchange client library, plus an interactive shell (`main`). We embed the
facade operations, the construction/connectivity check, and the shell loop
as pure Lean functions; a possibly-raised Python exception is modelled with
`Except`, and `sys.exit(n)` / process termination with explicit outcome
constructors.
-/

set_option autoImplicit false

namespace BinanceBot

/-- An opaque structured payload returned verbatim by the exchange
(the dictionaries the wrapped client library returns). Its content is
irrelevant to the facade, which forwards it unchanged. -/
structure ExchangePayload where
  raw : String
deriving DecidableEq, Repr

/-- The taxonomy of exceptions the wrapped client library can raise,
as caught by the facade: `BinanceAPIException` (structured code + message),
`BinanceOrderException` (order-validation error, code + message),
`requests.exceptions.RequestException` (network error), and any other
generic `Exception`. All four are Python `Exception` subclasses. -/
inductive AdapterError where
  | apiError (code : Int) (message : String)
  | orderError (code : Int) (message : String)
  | requestError (message : String)
  | generic (message : String)
deriving DecidableEq, Repr

/-- The `str()` form of a `BinanceAPIException`: the wrapped library formats
it as `APIError(code=<code>): <message>`. -/
def apiErrorStr (code : Int) (message : String) : String :=
  "APIError(code=" ++ toString code ++ "): " ++ message

/-- The `str()` form of a `BinanceOrderException`: the wrapped library
formats it as `BinanceOrderException(code=<code>): <message>`. -/
def orderErrorStr (code : Int) (message : String) : String :=
  "BinanceOrderException(code=" ++ toString code ++ "): " ++ message

/-- Python `str(e)` for each modelled exception. For the two library
exception classes this is the formatted code + message string; for a
request error or a generic exception it is whatever text the exception
carries, possibly empty (e.g. `Exception()` has an empty `str`). -/
def pyStr : AdapterError → String
  | .apiError code message => apiErrorStr code message
  | .orderError code message => orderErrorStr code message
  | .requestError message => message
  | .generic message => message

/-- The keyword arguments the facade passes to the client library's
`futures_create_order` call. Quantities and prices are modelled as exact
rationals: the facade performs no arithmetic on them, it only forwards the
values parsed from user input. -/
structure CreateOrderRequest where
  symbol : String
  side : String
  type : String
  timeInForce : Option String
  quantity : Rat
  price : Option Rat
  stopPrice : Option Rat
deriving DecidableEq, Repr

/-- The opaque exchange-client capability (`self.client`): each endpoint
call either succeeds with a payload or raises one of the modelled
exceptions. -/
structure ExchangeClient where
  futures_time : Except AdapterError ExchangePayload
  futures_account : Except AdapterError ExchangePayload
  futures_create_order : CreateOrderRequest → Except AdapterError ExchangePayload
  futures_get_order : String → Int → Except AdapterError ExchangePayload
  futures_cancel_order : String → Int → Except AdapterError ExchangePayload
  futures_account_balance : Except AdapterError ExchangePayload

/-- The dictionary a facade operation returns: either the exchange payload
forwarded verbatim, or the error dictionary built as
`{"error": str(e)}`. -/
inductive BotResult where
  | payload (p : ExchangePayload)
  | errorDict (message : String)
deriving DecidableEq, Repr

/-- `true` exactly on the success-payload form of a result. -/
def BotResult.isPayload : BotResult → Bool
  | .payload _ => true
  | .errorDict _ => false

/-- `true` exactly on the error-dictionary form of a result. -/
def BotResult.isErrorDict : BotResult → Bool
  | .payload _ => false
  | .errorDict _ => true

/-- Keyword arguments of the `futures_create_order` call made by
`place_market_order`: side and quantity as given, type `MARKET`, no
time-in-force, no prices. -/
def marketOrderParams (symbol side : String) (quantity : Rat) : CreateOrderRequest :=
  { symbol := symbol, side := side, type := "MARKET", timeInForce := none,
    quantity := quantity, price := none, stopPrice := none }

/-- Keyword arguments of the `futures_create_order` call made by
`place_limit_order`: type `LIMIT`, time-in-force fixed to `GTC`, caller's
price. -/
def limitOrderParams (symbol side : String) (quantity price : Rat) : CreateOrderRequest :=
  { symbol := symbol, side := side, type := "LIMIT", timeInForce := some "GTC",
    quantity := quantity, price := some price, stopPrice := none }

/-- Keyword arguments of the `futures_create_order` call made by
`place_stop_limit_order`: type `STOP`, time-in-force fixed to `GTC`,
caller's limit price as `price` and stop price as `stopPrice`. -/
def stopLimitOrderParams (symbol side : String) (quantity stop_price limit_price : Rat) :
    CreateOrderRequest :=
  { symbol := symbol, side := side, type := "STOP", timeInForce := some "GTC",
    quantity := quantity, price := some limit_price, stopPrice := some stop_price }

/-- `BasicBot.place_market_order`: calls `futures_create_order` and returns
the payload on success; the three except clauses (`BinanceAPIException`,
`BinanceOrderException`, bare `Exception`) each return
`{"error": str(e)}`. An uncaught exception would be the `Except.error`
case of the return type; every branch returns `Except.ok`. -/
def place_market_order (cl : ExchangeClient) (symbol side : String) (quantity : Rat) :
    Except AdapterError BotResult :=
  match cl.futures_create_order (marketOrderParams symbol side quantity) with
  | .ok order => .ok (.payload order)
  | .error (.apiError code message) => .ok (.errorDict (apiErrorStr code message))
  | .error (.orderError code message) => .ok (.errorDict (orderErrorStr code message))
  | .error e => .ok (.errorDict (pyStr e))

/-- `BasicBot.place_limit_order`: as the market order, but type `LIMIT`,
`timeInForce='GTC'` and the caller's price; same three except clauses. -/
def place_limit_order (cl : ExchangeClient) (symbol side : String) (quantity price : Rat) :
    Except AdapterError BotResult :=
  match cl.futures_create_order (limitOrderParams symbol side quantity price) with
  | .ok order => .ok (.payload order)
  | .error (.apiError code message) => .ok (.errorDict (apiErrorStr code message))
  | .error (.orderError code message) => .ok (.errorDict (orderErrorStr code message))
  | .error e => .ok (.errorDict (pyStr e))

/-- `BasicBot.place_stop_limit_order`: type `STOP`, `timeInForce='GTC'`,
`price=limit_price`, `stopPrice=stop_price`; same three except clauses. -/
def place_stop_limit_order (cl : ExchangeClient) (symbol side : String)
    (quantity stop_price limit_price : Rat) : Except AdapterError BotResult :=
  match cl.futures_create_order (stopLimitOrderParams symbol side quantity stop_price limit_price) with
  | .ok order => .ok (.payload order)
  | .error (.apiError code message) => .ok (.errorDict (apiErrorStr code message))
  | .error (.orderError code message) => .ok (.errorDict (orderErrorStr code message))
  | .error e => .ok (.errorDict (pyStr e))

/-- `BasicBot.get_order_status`: calls `futures_get_order`; except clauses
are `BinanceAPIException` then bare `Exception` (which also catches order
and request errors). -/
def get_order_status (cl : ExchangeClient) (symbol : String) (order_id : Int) :
    Except AdapterError BotResult :=
  match cl.futures_get_order symbol order_id with
  | .ok order_status => .ok (.payload order_status)
  | .error (.apiError code message) => .ok (.errorDict (apiErrorStr code message))
  | .error e => .ok (.errorDict (pyStr e))

/-- `BasicBot.cancel_order`: calls `futures_cancel_order`; except clauses
are `BinanceAPIException` then bare `Exception`. -/
def cancel_order (cl : ExchangeClient) (symbol : String) (order_id : Int) :
    Except AdapterError BotResult :=
  match cl.futures_cancel_order symbol order_id with
  | .ok response => .ok (.payload response)
  | .error (.apiError code message) => .ok (.errorDict (apiErrorStr code message))
  | .error e => .ok (.errorDict (pyStr e))

/-- `BasicBot.get_account_balance`: calls `futures_account_balance`; except
clauses are `BinanceAPIException` then bare `Exception`. -/
def get_account_balance (cl : ExchangeClient) : Except AdapterError BotResult :=
  match cl.futures_account_balance with
  | .ok balance => .ok (.payload balance)
  | .error (.apiError code message) => .ok (.errorDict (apiErrorStr code message))
  | .error e => .ok (.errorDict (pyStr e))

/-- First log line printed by `_verify_connection` when the account-info
check fails with exchange error code `-2015`. -/
def permLog1 : String := "API key doesn\x27t have futures permissions or IP not whitelisted"

/-- Second log line printed alongside `permLog1`. -/
def permLog2 : String := "Please create a new API key with \x27Enable Futures\x27 checked"

/-- `BasicBot._verify_connection`: calls `futures_time`, then
`futures_account` inside an inner try whose `BinanceAPIException` handler
logs the two permission lines when the code is `-2015` and re-raises; the
outer handlers log `BinanceAPIException` and `RequestException` and
re-raise, so every adapter error propagates out (with logs accumulated).
Returns the logged lines and `some e` when the exception `e` escapes. -/
def verify_connection (cl : ExchangeClient) : List String × Option AdapterError :=
  match cl.futures_time with
  | .error e =>
      match e with
      | .apiError code message =>
          (["Error verifying connection: " ++ apiErrorStr code message],
           some (.apiError code message))
      | .requestError message =>
          (["Network error verifying connection: " ++ message], some (.requestError message))
      | e => ([], some e)
  | .ok server_time =>
      let l0 := ["Connection verified. Server time: " ++ server_time.raw]
      match cl.futures_account with
      | .ok _ => (l0 ++ ["API key has correct futures permissions"], none)
      | .error e =>
          match e with
          | .apiError code message =>
              let inner := if code = -2015 then [permLog1, permLog2] else []
              (l0 ++ inner ++ ["Error verifying connection: " ++ apiErrorStr code message],
               some (.apiError code message))
          | .requestError message =>
              (l0 ++ ["Network error verifying connection: " ++ message],
               some (.requestError message))
          | e => (l0, some e)

/-- Outcome of `BasicBot.__init__`: a usable bot, a `sys.exit(code)`
(which raises `SystemExit`, not an `Exception`), or an `Exception`
propagating to the caller. -/
inductive InitOutcome where
  | bot
  | exited (code : Nat)
  | raised (e : AdapterError)
deriving DecidableEq, Repr

/-- `BasicBot.__init__`: constructs the client, logs, runs
`_verify_connection`; its `except Exception` clause catches every modelled
exception (all are `Exception` subclasses), logs, and calls `sys.exit(1)`.
Returns the accumulated log lines and the outcome. -/
def BasicBot_init (cl : ExchangeClient) : List String × InitOutcome :=
  let l0 := ["Bot initialized successfully. Testnet: True"]
  match verify_connection cl with
  | (lv, none) => (l0 ++ lv, .bot)
  | (lv, some e) =>
      (l0 ++ lv ++ ["Error during bot initialization: " ++ pyStr e], .exited 1)

/-- What happens at the `bot = BasicBot(...)` statement in `main`:
either the bot is available and the loop runs, or the except-`Exception`
handler printing the "Failed to initialize bot" guidance runs, or an
uncaught `SystemExit` terminates the process with its code. -/
inductive MainInitStep where
  | running
  | initFailureHandler (e : AdapterError)
  | processExit (code : Nat)
deriving DecidableEq, Repr

/-- The `try: bot = BasicBot(...) except Exception` block of `main`.
`SystemExit` raised by `sys.exit` inside the constructor is a
`BaseException`, not an `Exception`, so the handler does not catch it and
the process terminates with the exit code. -/
def main_construct_bot (cl : ExchangeClient) : MainInitStep :=
  match (BasicBot_init cl).2 with
  | .bot => .running
  | .exited code => .processExit code
  | .raised e => .initFailureHandler e

/-- Python substring containment (`needle in hay`) on character lists:
true when `needle` occurs contiguously in `hay` (the empty needle is
contained in everything). -/
def containsSub (needle : List Char) : List Char → Bool
  | [] => needle.isEmpty
  | c :: t => needle.isPrefixOf (c :: t) || containsSub needle t

/-- Python `needle in hay` on strings. -/
def pythonStrIn (needle hay : String) : Bool :=
  containsSub needle.data hay.data

/-- The credential guard at the top of `main`: true when the placeholder
marker text still occurs in the configured key or secret. -/
def placeholderCheck (api_key api_secret : String) : Bool :=
  pythonStrIn "YOUR_NEW_API_KEY_HERE" api_key ||
    pythonStrIn "YOUR_NEW_API_SECRET_HERE" api_secret

/-- How far `main` gets before its interactive loop: `credExit` is the
pre-network `sys.exit(1)` on the placeholder check (no client is built and
no connectivity check runs); `initExit` is process termination during bot
construction; `running` means the loop starts with a live bot. -/
inductive Startup where
  | credExit (code : Nat)
  | initExit (code : Nat)
  | running
deriving DecidableEq, Repr

/-- The startup phase of `main`: placeholder check first (exiting 1 before
any network activity), then bot construction. The unreachable
"Failed to initialize bot" handler ends with `return`, i.e. natural
termination with code 0. -/
def startup (api_key api_secret : String) (cl : ExchangeClient) : Startup :=
  if placeholderCheck api_key api_secret then .credExit 1
  else
    match main_construct_bot cl with
    | .running => .running
    | .processExit code => .initExit code
    | .initFailureHandler _ => .initExit 0

/-- Numeric value of a digit character. -/
def digitVal (c : Char) : Nat := c.toNat - 48

/-- Value of a digit string read left to right. -/
def digitsVal (l : List Char) : Nat :=
  l.foldl (fun a c => 10 * a + digitVal c) 0

/-- Leading sign of a Python numeric literal. -/
def parseSign : List Char → Int × List Char
  | '-' :: t => (-1, t)
  | '+' :: t => (1, t)
  | l => (1, l)

/-- Python's `float()` conversion restricted to plain decimal literals
(optional sign, digits, optional single point, at least one digit):
`none` models the `ValueError` raised on a non-numeric string. The value
is kept as an exact rational. -/
def parsePyFloat (s : String) : Option Rat :=
  let (sg, cs) := parseSign s.data
  let ip := cs.takeWhile Char.isDigit
  let rest := cs.dropWhile Char.isDigit
  match rest with
  | [] => if ip.isEmpty then none else some ((sg : Rat) * (digitsVal ip : Rat))
  | '.' :: fr =>
      if fr.all Char.isDigit && !(ip.isEmpty && fr.isEmpty) then
        some ((sg : Rat) * ((digitsVal ip : Rat) + (digitsVal fr : Rat) / ((10 : Rat) ^ fr.length)))
      else none
  | _ => none

/-- Python's `int()` conversion restricted to plain decimal literals:
`none` models the `ValueError` on a non-numeric string (including strings
with a decimal point). -/
def parsePyInt (s : String) : Option Int :=
  let (sg, cs) := parseSign s.data
  if cs.isEmpty then none
  else if cs.all Char.isDigit then some (sg * (digitsVal cs : Int)) else none

/-- Python's `str.upper()` on ASCII input: uppercase each character. -/
def pyUpper (s : String) : String := ⟨s.data.map Char.toUpper⟩

/-- `get_user_input(prompt)` with the default `str` type: `str()` never
fails, so the first available line is returned. `none` models standard
input being exhausted (the Python loop would re-prompt forever). -/
def getUserInputStr : List String → Option (String × List String)
  | [] => none
  | s :: t => some (s, t)

/-- `get_user_input(prompt, float)`: re-prompts on `ValueError` until a
line coerces, consuming the rejected lines; `none` when no line ever
coerces (the Python loop would re-prompt forever, never returning). -/
def getUserInputFloat : List String → Option (Rat × List String)
  | [] => none
  | s :: t =>
      match parsePyFloat s with
      | some q => some (q, t)
      | none => getUserInputFloat t

/-- `get_user_input(prompt, int)`: as `getUserInputFloat` with `int()`. -/
def getUserInputInt : List String → Option (Int × List String)
  | [] => none
  | s :: t =>
      match parsePyInt s with
      | some i => some (i, t)
      | none => getUserInputInt t

/-- Result of one iteration of the `main` loop after the menu choice was
read: a facade operation was dispatched (with the un-consumed input),
the invalid-choice notice was printed, the `break` on choice 7 ran, or the
shell is blocked re-prompting forever on exhausted input (in which case no
facade operation is ever invoked). -/
inductive StepOutcome where
  | dispatched (r : Except AdapterError BotResult) (rest : List String)
  | invalidChoice
  | exitLoop
  | blocked

/-- The `if choice == '1' ... elif ... else` dispatch of the `main` loop:
collects the fields for the chosen operation with `get_user_input`
(normalizing the side with `.upper()`), then calls the facade. -/
def runChoice (cl : ExchangeClient) (choice : String) (inputs : List String) : StepOutcome :=
  if choice = "1" then
    match getUserInputStr inputs with
    | none => .blocked
    | some (symbol, r1) =>
        match getUserInputStr r1 with
        | none => .blocked
        | some (side, r2) =>
            match getUserInputFloat r2 with
            | none => .blocked
            | some (quantity, r3) =>
                .dispatched (place_market_order cl symbol (pyUpper side) quantity) r3
  else if choice = "2" then
    match getUserInputStr inputs with
    | none => .blocked
    | some (symbol, r1) =>
        match getUserInputStr r1 with
        | none => .blocked
        | some (side, r2) =>
            match getUserInputFloat r2 with
            | none => .blocked
            | some (quantity, r3) =>
                match getUserInputFloat r3 with
                | none => .blocked
                | some (price, r4) =>
                    .dispatched (place_limit_order cl symbol (pyUpper side) quantity price) r4
  else if choice = "3" then
    match getUserInputStr inputs with
    | none => .blocked
    | some (symbol, r1) =>
        match getUserInputStr r1 with
        | none => .blocked
        | some (side, r2) =>
            match getUserInputFloat r2 with
            | none => .blocked
            | some (quantity, r3) =>
                match getUserInputFloat r3 with
                | none => .blocked
                | some (stop_price, r4) =>
                    match getUserInputFloat r4 with
                    | none => .blocked
                    | some (limit_price, r5) =>
                        .dispatched
                          (place_stop_limit_order cl symbol (pyUpper side) quantity stop_price
                            limit_price) r5
  else if choice = "4" then
    match getUserInputStr inputs with
    | none => .blocked
    | some (symbol, r1) =>
        match getUserInputInt r1 with
        | none => .blocked
        | some (order_id, r2) => .dispatched (get_order_status cl symbol order_id) r2
  else if choice = "5" then
    match getUserInputStr inputs with
    | none => .blocked
    | some (symbol, r1) =>
        match getUserInputInt r1 with
        | none => .blocked
        | some (order_id, r2) => .dispatched (cancel_order cl symbol order_id) r2
  else if choice = "6" then .dispatched (get_account_balance cl) inputs
  else if choice = "7" then .exitLoop
  else .invalidChoice

/-- The `while True` loop of `main`, fuelled to stay total: reads a menu
choice, dispatches it, and continues; choice 7 breaks out and `main`
returns, ending the process with exit code 0. `none` models an
interaction that never terminates within the fuel (or blocks on input). -/
def mainLoop (cl : ExchangeClient) : Nat → List String → Option Nat
  | 0, _ => none
  | _ + 1, [] => none
  | fuel + 1, choice :: rest =>
      match runChoice cl choice rest with
      | .exitLoop => some 0
      | .dispatched _ r => mainLoop cl fuel r
      | .invalidChoice => mainLoop cl fuel rest
      | .blocked => none

/-- `main` end to end: the placeholder guard and bot construction, then the
interactive loop. The returned value is the process exit code (`none` when
the run does not terminate within the fuel). -/
def mainRun (api_key api_secret : String) (cl : ExchangeClient) (fuel : Nat)
    (inputs : List String) : Option Nat :=
  match startup api_key api_secret cl with
  | .credExit code => some code
  | .initExit code => some code
  | .running => mainLoop cl fuel inputs

/-- A client whose every endpoint succeeds with a fixed payload. -/
def constClient (p : ExchangePayload) : ExchangeClient :=
  { futures_time := .ok p
    futures_account := .ok p
    futures_create_order := fun _ => .ok p
    futures_get_order := fun _ _ => .ok p
    futures_cancel_order := fun _ _ => .ok p
    futures_account_balance := .ok p }

/-- A healthy concrete client used to instantiate the theorems. -/
def goodClient : ExchangeClient := constClient ⟨"payload"⟩

/-- A client whose account-info check fails with exchange error code
`-2015` (permission denied). -/
def permDeniedClient : ExchangeClient :=
  { goodClient with
      futures_account :=
        .error (.apiError (-2015) "Invalid API-key, IP, or permissions for action.") }

/-- A client whose create-order call raises a generic exception carrying an
empty text, as `raise Exception()` would. -/
def emptyGenericClient : ExchangeClient :=
  { goodClient with futures_create_order := fun _ => .error (.generic "") }

/-- A client whose every endpoint raises a generic exception. -/
def failingClient : ExchangeClient :=
  { futures_time := .error (.generic "boom")
    futures_account := .error (.generic "boom")
    futures_create_order := fun _ => .error (.generic "boom")
    futures_get_order := fun _ _ => .error (.generic "boom")
    futures_cancel_order := fun _ _ => .error (.generic "boom")
    futures_account_balance := .error (.generic "boom") }

/-- C1: for every one of the six facade operations and every adapter
behaviour (success or any raised error of the modelled taxonomy), the
operation returns normally (`Except.ok`) with a `BotResult`, and a
`BotResult` is exactly one of a forwarded exchange payload or an error
dictionary — no exception propagates past the facade boundary. -/
theorem facade_ops_return_normally (cl : ExchangeClient) (symbol side : String)
    (quantity price stop_price limit_price : Rat) (order_id : Int) :
    (∃ r, place_market_order cl symbol side quantity = .ok r) ∧
    (∃ r, place_limit_order cl symbol side quantity price = .ok r) ∧
    (∃ r, place_stop_limit_order cl symbol side quantity stop_price limit_price = .ok r) ∧
    (∃ r, get_order_status cl symbol order_id = .ok r) ∧
    (∃ r, cancel_order cl symbol order_id = .ok r) ∧
    (∃ r, get_account_balance cl = .ok r) ∧
    (∀ r : BotResult, r.isPayload ≠ r.isErrorDict) := by
  refine ⟨?_, ?_, ?_, ?_, ?_, ?_, ?_⟩
  · unfold place_market_order
    cases cl.futures_create_order (marketOrderParams symbol side quantity) with
    | ok p => exact ⟨.payload p, rfl⟩
    | error e => cases e <;> exact ⟨_, rfl⟩
  · unfold place_limit_order
    cases cl.futures_create_order (limitOrderParams symbol side quantity price) with
    | ok p => exact ⟨.payload p, rfl⟩
    | error e => cases e <;> exact ⟨_, rfl⟩
  · unfold place_stop_limit_order
    cases cl.futures_create_order
        (stopLimitOrderParams symbol side quantity stop_price limit_price) with
    | ok p => exact ⟨.payload p, rfl⟩
    | error e => cases e <;> exact ⟨_, rfl⟩
  · unfold get_order_status
    cases cl.futures_get_order symbol order_id with
    | ok p => exact ⟨.payload p, rfl⟩
    | error e => cases e <;> exact ⟨_, rfl⟩
  · unfold cancel_order
    cases cl.futures_cancel_order symbol order_id with
    | ok p => exact ⟨.payload p, rfl⟩
    | error e => cases e <;> exact ⟨_, rfl⟩
  · unfold get_account_balance
    cases cl.futures_account_balance with
    | ok p => exact ⟨.payload p, rfl⟩
    | error e => cases e <;> exact ⟨_, rfl⟩
  · intro r
    cases r <;> simp [BotResult.isPayload, BotResult.isErrorDict]

/-- C2: for every one of the six facade operations, whenever the adapter
call succeeds with payload `p`, the operation returns exactly `p`,
unchanged (round-trip identity of the success payload). -/
theorem success_payload_roundtrip (cl : ExchangeClient) (p : ExchangePayload) :
    (∀ symbol side quantity,
        cl.futures_create_order (marketOrderParams symbol side quantity) = .ok p →
        place_market_order cl symbol side quantity = .ok (.payload p)) ∧
    (∀ symbol side quantity price,
        cl.futures_create_order (limitOrderParams symbol side quantity price) = .ok p →
        place_limit_order cl symbol side quantity price = .ok (.payload p)) ∧
    (∀ symbol side quantity stop_price limit_price,
        cl.futures_create_order
            (stopLimitOrderParams symbol side quantity stop_price limit_price) = .ok p →
        place_stop_limit_order cl symbol side quantity stop_price limit_price =
          .ok (.payload p)) ∧
    (∀ symbol order_id, cl.futures_get_order symbol order_id = .ok p →
        get_order_status cl symbol order_id = .ok (.payload p)) ∧
    (∀ symbol order_id, cl.futures_cancel_order symbol order_id = .ok p →
        cancel_order cl symbol order_id = .ok (.payload p)) ∧
    (cl.futures_account_balance = .ok p → get_account_balance cl = .ok (.payload p)) := by
  refine ⟨?_, ?_, ?_, ?_, ?_, ?_⟩
  · intro symbol side quantity h; simp [place_market_order, h]
  · intro symbol side quantity price h; simp [place_limit_order, h]
  · intro symbol side quantity stop_price limit_price h; simp [place_stop_limit_order, h]
  · intro symbol order_id h; simp [get_order_status, h]
  · intro symbol order_id h; simp [cancel_order, h]
  · intro h; simp [get_account_balance, h]

/-- Witness for C2: the six operations on a concrete client whose every
endpoint succeeds return that payload verbatim. -/
theorem success_payload_roundtrip_witness :
    place_market_order goodClient "BTCUSDT" "BUY" 1 = .ok (.payload ⟨"payload"⟩) ∧
    place_limit_order goodClient "BTCUSDT" "BUY" 1 2 = .ok (.payload ⟨"payload"⟩) ∧
    place_stop_limit_order goodClient "BTCUSDT" "SELL" 1 2 3 = .ok (.payload ⟨"payload"⟩) ∧
    get_order_status goodClient "BTCUSDT" 42 = .ok (.payload ⟨"payload"⟩) ∧
    cancel_order goodClient "BTCUSDT" 42 = .ok (.payload ⟨"payload"⟩) ∧
    get_account_balance goodClient = .ok (.payload ⟨"payload"⟩) :=
  ⟨(success_payload_roundtrip goodClient ⟨"payload"⟩).1 "BTCUSDT" "BUY" 1 rfl,
   (success_payload_roundtrip goodClient ⟨"payload"⟩).2.1 "BTCUSDT" "BUY" 1 2 rfl,
   (success_payload_roundtrip goodClient ⟨"payload"⟩).2.2.1 "BTCUSDT" "SELL" 1 2 3 rfl,
   (success_payload_roundtrip goodClient ⟨"payload"⟩).2.2.2.1 "BTCUSDT" 42 rfl,
   (success_payload_roundtrip goodClient ⟨"payload"⟩).2.2.2.2.1 "BTCUSDT" 42 rfl,
   (success_payload_roundtrip goodClient ⟨"payload"⟩).2.2.2.2.2 rfl⟩

/-- C3: when the connectivity check's account-info call fails with
exchange error code `-2015`, construction logs the distinguished
missing-futures-permission message, ends in `sys.exit(1)` (a non-zero
exit), and no usable bot results. -/
theorem perm_denied_construction_fatal (cl : ExchangeClient) (server_time : ExchangePayload)
    (message : String) (ht : cl.futures_time = .ok server_time)
    (ha : cl.futures_account = .error (.apiError (-2015) message)) :
    permLog1 ∈ (BasicBot_init cl).1 ∧
    (BasicBot_init cl).2 = .exited 1 ∧
    (BasicBot_init cl).2 ≠ .bot := by
  have hv : verify_connection cl =
      (["Connection verified. Server time: " ++ server_time.raw] ++ [permLog1, permLog2] ++
         ["Error verifying connection: " ++ apiErrorStr (-2015) message],
       some (.apiError (-2015) message)) := by
    unfold verify_connection
    rw [ht, ha]
    simp
  refine ⟨?_, ?_, ?_⟩
  · unfold BasicBot_init
    rw [hv]
    simp
  · unfold BasicBot_init
    rw [hv]
  · unfold BasicBot_init
    rw [hv]
    simp

/-- Witness for C3: a concrete client answering the account-info check
with error code `-2015` makes construction log the permission message and
exit with status 1. -/
theorem perm_denied_construction_fatal_witness :
    permLog1 ∈ (BasicBot_init permDeniedClient).1 ∧
    (BasicBot_init permDeniedClient).2 = .exited 1 ∧
    (BasicBot_init permDeniedClient).2 ≠ .bot :=
  perm_denied_construction_fatal permDeniedClient ⟨"payload"⟩
    "Invalid API-key, IP, or permissions for action." rfl rfl

/-- Counterexample to C4 as stated: a generic adapter exception whose
`str()` is empty (as `raise Exception()` produces) yields an error
dictionary whose message is the empty string, so the error message is not
always non-empty. -/
theorem empty_error_message_cex :
    place_market_order emptyGenericClient "BTCUSDT" "BUY" 1 = .ok (.errorDict "") ∧
    String.length "" = 0 :=
  ⟨rfl, rfl⟩

/-- C4 amended: every adapter-raised error yields an error dictionary
carrying the error's `str()` form and no success payload (an error
dictionary is never a payload); the message is non-empty for exchange API
errors and order-validation errors, whose `str()` the library formats with
a code prefix, but for a generic error it is the exception's own text,
which may be empty. -/
theorem error_results_carry_pystr (cl : ExchangeClient) (e : AdapterError)
    (symbol side : String) (quantity price stop_price limit_price : Rat) (order_id : Int) :
    (cl.futures_create_order (marketOrderParams symbol side quantity) = .error e →
        place_market_order cl symbol side quantity = .ok (.errorDict (pyStr e))) ∧
    (cl.futures_create_order (limitOrderParams symbol side quantity price) = .error e →
        place_limit_order cl symbol side quantity price = .ok (.errorDict (pyStr e))) ∧
    (cl.futures_create_order
          (stopLimitOrderParams symbol side quantity stop_price limit_price) = .error e →
        place_stop_limit_order cl symbol side quantity stop_price limit_price =
          .ok (.errorDict (pyStr e))) ∧
    (cl.futures_get_order symbol order_id = .error e →
        get_order_status cl symbol order_id = .ok (.errorDict (pyStr e))) ∧
    (cl.futures_cancel_order symbol order_id = .error e →
        cancel_order cl symbol order_id = .ok (.errorDict (pyStr e))) ∧
    (cl.futures_account_balance = .error e →
        get_account_balance cl = .ok (.errorDict (pyStr e))) ∧
    (∀ code m, pyStr (.apiError code m) ≠ "") ∧
    (∀ code m, pyStr (.orderError code m) ≠ "") ∧
    (∀ m p, BotResult.errorDict m ≠ .payload p) := by
  refine ⟨?_, ?_, ?_, ?_, ?_, ?_, ?_, ?_, ?_⟩
  · intro h; unfold place_market_order; rw [h]; cases e <;> rfl
  · intro h; unfold place_limit_order; rw [h]; cases e <;> rfl
  · intro h; unfold place_stop_limit_order; rw [h]; cases e <;> rfl
  · intro h; unfold get_order_status; rw [h]; cases e <;> rfl
  · intro h; unfold cancel_order; rw [h]; cases e <;> rfl
  · intro h; unfold get_account_balance; rw [h]; cases e <;> rfl
  · intro code m h
    have h2 := congrArg String.length h
    simp [pyStr, apiErrorStr, String.length_append] at h2
    exact absurd h2.1.1.1 (by decide)
  · intro code m h
    have h2 := congrArg String.length h
    simp [pyStr, orderErrorStr, String.length_append] at h2
    exact absurd h2.1.1.1 (by decide)
  · intro m p h; exact BotResult.noConfusion h

/-- Witness for C4 amended: on a concrete client whose every endpoint
raises a generic exception with text `boom`, all six operations return the
error dictionary carrying that text. -/
theorem error_results_carry_pystr_witness :
    place_market_order failingClient "BTCUSDT" "BUY" 1 =
      .ok (.errorDict (pyStr (.generic "boom"))) ∧
    place_limit_order failingClient "BTCUSDT" "BUY" 1 2 =
      .ok (.errorDict (pyStr (.generic "boom"))) ∧
    place_stop_limit_order failingClient "BTCUSDT" "SELL" 1 2 3 =
      .ok (.errorDict (pyStr (.generic "boom"))) ∧
    get_order_status failingClient "BTCUSDT" 42 =
      .ok (.errorDict (pyStr (.generic "boom"))) ∧
    cancel_order failingClient "BTCUSDT" 42 =
      .ok (.errorDict (pyStr (.generic "boom"))) ∧
    get_account_balance failingClient = .ok (.errorDict (pyStr (.generic "boom"))) :=
  ⟨(error_results_carry_pystr failingClient (.generic "boom") "BTCUSDT" "BUY" 1 2 3 4 42).1 rfl,
   (error_results_carry_pystr failingClient (.generic "boom") "BTCUSDT" "BUY" 1 2 3 4 42).2.1 rfl,
   (error_results_carry_pystr failingClient (.generic "boom") "BTCUSDT" "SELL" 1 2 3 4
       42).2.2.1 rfl,
   (error_results_carry_pystr failingClient (.generic "boom") "BTCUSDT" "BUY" 1 2 3 4
       42).2.2.2.1 rfl,
   (error_results_carry_pystr failingClient (.generic "boom") "BTCUSDT" "BUY" 1 2 3 4
       42).2.2.2.2.1 rfl,
   (error_results_carry_pystr failingClient (.generic "boom") "BTCUSDT" "BUY" 1 2 3 4
       42).2.2.2.2.2.1 rfl⟩

/-- C5: on menu choice `1` with inputs `BTCUSDT`, `buy`, `0.01`, the shell
normalizes the side case-insensitively to `BUY`, coerces the quantity to
the number one hundredth, and dispatches the market-order facade call,
whose create-order request carries side `BUY`, type `MARKET` and quantity
one hundredth. -/
theorem market_scenario_dispatch (cl : ExchangeClient) :
    runChoice cl "1" ["BTCUSDT", "buy", "0.01"] =
      .dispatched (place_market_order cl "BTCUSDT" "BUY" (1 / 100 : Rat)) [] ∧
    marketOrderParams "BTCUSDT" "BUY" (1 / 100 : Rat) =
      { symbol := "BTCUSDT", side := "BUY", type := "MARKET", timeInForce := none,
        quantity := 1 / 100, price := none, stopPrice := none } := by
  have hq : parsePyFloat "0.01" = some (1 / 100 : Rat) := by
    simp [parsePyFloat, parseSign, digitsVal, digitVal]
    norm_num
  have hu : pyUpper "buy" = "BUY" := rfl
  constructor
  · simp [runChoice, getUserInputStr, getUserInputFloat, hq, hu]
  · rfl

/-- Counterexample to C6 as stated: with both credentials empty (unset),
the placeholder guard does not fire and startup proceeds past it all the
way to bot construction and the connectivity check — the process does not
exit with status 1 before network activity. -/
theorem unset_credentials_not_rejected_cex :
    placeholderCheck "" "" = false ∧ startup "" "" goodClient = .running :=
  ⟨rfl, rfl⟩

/-- C6 amended: if either configured credential still contains its
placeholder marker text, `main` exits with status 1 before any network
activity (no client construction, no connectivity check); credentials that
are merely empty or otherwise non-placeholder are not rejected by this
guard. A normal Exit selection (choice `7`) ends the run with exit code
0. -/
theorem placeholder_guard_and_exit_codes (api_key api_secret : String)
    (cl : ExchangeClient) (fuel : Nat) (inputs : List String) :
    (placeholderCheck api_key api_secret = true →
        startup api_key api_secret cl = .credExit 1 ∧
        mainRun api_key api_secret cl fuel inputs = some 1) ∧
    (startup api_key api_secret cl = .running →
        mainRun api_key api_secret cl (fuel + 1) ("7" :: inputs) = some 0) := by
  constructor
  · intro h
    have hs : startup api_key api_secret cl = .credExit 1 := by
      unfold startup
      rw [h]
      rfl
    exact ⟨hs, by unfold mainRun; rw [hs]⟩
  · intro h
    unfold mainRun
    rw [h]
    have h7 : runChoice cl "7" inputs = .exitLoop := by
      unfold runChoice
      simp
    unfold mainLoop
    rw [h7]

/-- Witness for C6 amended: a key that still holds the placeholder marker
makes the run exit with code 1 before any network step, and with real
credentials and a healthy client the Exit selection terminates with code
0. -/
theorem placeholder_guard_and_exit_codes_witness :
    (startup "xYOUR_NEW_API_KEY_HEREx" "secret" goodClient = .credExit 1 ∧
     mainRun "xYOUR_NEW_API_KEY_HEREx" "secret" goodClient 3 [] = some 1) ∧
    mainRun "AgiQ" "07Ck" goodClient 3 ["7"] = some 0 :=
  ⟨(placeholder_guard_and_exit_codes "xYOUR_NEW_API_KEY_HEREx" "secret" goodClient 3 []).1
      rfl,
   (placeholder_guard_and_exit_codes "AgiQ" "07Ck" goodClient 2 []).2 rfl⟩

/-- C7: a non-numeric line supplied where a numeric field is required is
consumed by the re-prompt loop without affecting the eventual value, and
when the numeric field never coerces, the shell stays in the prompt loop
and dispatches no facade operation: a facade call happens only after every
required field has been coerced. -/
theorem nonnumeric_input_reprompts (cl : ExchangeClient) :
    (∀ s rest, parsePyFloat s = none →
        getUserInputFloat (s :: rest) = getUserInputFloat rest) ∧
    (∀ s rest, parsePyInt s = none →
        getUserInputInt (s :: rest) = getUserInputInt rest) ∧
    (∀ symbol side qinputs, getUserInputFloat qinputs = none →
        runChoice cl "1" (symbol :: side :: qinputs) = .blocked) ∧
    (∀ symbol idinputs, getUserInputInt idinputs = none →
        runChoice cl "4" (symbol :: idinputs) = .blocked) := by
  refine ⟨?_, ?_, ?_, ?_⟩
  · intro s rest h
    simp [getUserInputFloat, h]
  · intro s rest h
    simp [getUserInputInt, h]
  · intro symbol side qinputs h
    simp [runChoice, getUserInputStr, h]
  · intro symbol idinputs h
    simp [runChoice, getUserInputStr, h]

/-- Witness for C7: the non-numeric line `abc` is skipped by both numeric
prompts, and with only non-numeric numeric-field input the shell
dispatches nothing. -/
theorem nonnumeric_input_reprompts_witness :
    getUserInputFloat ["abc", "1"] = getUserInputFloat ["1"] ∧
    getUserInputInt ["abc", "1"] = getUserInputInt ["1"] ∧
    runChoice goodClient "1" ["BTCUSDT", "buy", "abc"] = .blocked ∧
    runChoice goodClient "4" ["BTCUSDT", "abc"] = .blocked :=
  ⟨(nonnumeric_input_reprompts goodClient).1 "abc" ["1"] rfl,
   (nonnumeric_input_reprompts goodClient).2.1 "abc" ["1"] rfl,
   (nonnumeric_input_reprompts goodClient).2.2.1 "BTCUSDT" "buy" ["abc"] rfl,
   (nonnumeric_input_reprompts goodClient).2.2.2 "BTCUSDT" ["abc"] rfl⟩

/-- C8: every limit order and every stop-limit order placed by the facade
carries time-in-force `GTC`, fixed by the facade (the callers supply no
time-in-force argument, as the universally quantified caller inputs show);
the stop-limit order passes the caller's stop price as the trigger
(`stopPrice`) and the caller's limit price as the order price. -/
theorem gtc_fixed_and_stop_limit_prices (cl : ExchangeClient) (symbol side : String)
    (quantity price stop_price limit_price : Rat) :
    (limitOrderParams symbol side quantity price).timeInForce = some "GTC" ∧
    (stopLimitOrderParams symbol side quantity stop_price limit_price).timeInForce =
      some "GTC" ∧
    (stopLimitOrderParams symbol side quantity stop_price limit_price).stopPrice =
      some stop_price ∧
    (stopLimitOrderParams symbol side quantity stop_price limit_price).price =
      some limit_price ∧
    place_limit_order cl symbol side quantity price =
      (match cl.futures_create_order (limitOrderParams symbol side quantity price) with
       | .ok order => .ok (.payload order)
       | .error e => .ok (.errorDict (pyStr e))) ∧
    place_stop_limit_order cl symbol side quantity stop_price limit_price =
      (match cl.futures_create_order
            (stopLimitOrderParams symbol side quantity stop_price limit_price) with
       | .ok order => .ok (.payload order)
       | .error e => .ok (.errorDict (pyStr e))) := by
  refine ⟨rfl, rfl, rfl, rfl, ?_, ?_⟩
  · unfold place_limit_order
    cases cl.futures_create_order (limitOrderParams symbol side quantity price) with
    | ok p => rfl
    | error e => cases e <;> rfl
  · unfold place_stop_limit_order
    cases cl.futures_create_order
        (stopLimitOrderParams symbol side quantity stop_price limit_price) with
    | ok p => rfl
    | error e => cases e <;> rfl

/-- C9: none of the three order-placement operations validates its numeric
inputs locally: for every quantity, price, stop price and limit price —
the quantification covers zero and negative rationals, and the zero and
negative instantiations are spelled out — each operation invokes the
adapter's create-order endpoint unconditionally with exactly those
values. -/
theorem order_values_forwarded_unvalidated (cl : ExchangeClient) (symbol side : String)
    (quantity price stop_price limit_price : Rat) :
    place_market_order cl symbol side quantity =
      (match cl.futures_create_order (marketOrderParams symbol side quantity) with
       | .ok order => .ok (.payload order)
       | .error e => .ok (.errorDict (pyStr e))) ∧
    place_limit_order cl symbol side quantity price =
      (match cl.futures_create_order (limitOrderParams symbol side quantity price) with
       | .ok order => .ok (.payload order)
       | .error e => .ok (.errorDict (pyStr e))) ∧
    place_stop_limit_order cl symbol side quantity stop_price limit_price =
      (match cl.futures_create_order
            (stopLimitOrderParams symbol side quantity stop_price limit_price) with
       | .ok order => .ok (.payload order)
       | .error e => .ok (.errorDict (pyStr e))) ∧
    (marketOrderParams symbol side quantity).quantity = quantity ∧
    (limitOrderParams symbol side quantity price).quantity = quantity ∧
    (limitOrderParams symbol side quantity price).price = some price ∧
    (stopLimitOrderParams symbol side quantity stop_price limit_price).quantity =
      quantity ∧
    (stopLimitOrderParams symbol side quantity stop_price limit_price).stopPrice =
      some stop_price ∧
    (stopLimitOrderParams symbol side quantity stop_price limit_price).price =
      some limit_price ∧
    place_market_order cl symbol side (-1) =
      (match cl.futures_create_order (marketOrderParams symbol side (-1)) with
       | .ok order => .ok (.payload order)
       | .error e => .ok (.errorDict (pyStr e))) ∧
    place_limit_order cl symbol side 0 (-1) =
      (match cl.futures_create_order (limitOrderParams symbol side 0 (-1)) with
       | .ok order => .ok (.payload order)
       | .error e => .ok (.errorDict (pyStr e))) ∧
    place_stop_limit_order cl symbol side (-1) 0 (-1) =
      (match cl.futures_create_order (stopLimitOrderParams symbol side (-1) 0 (-1)) with
       | .ok order => .ok (.payload order)
       | .error e => .ok (.errorDict (pyStr e))) := by
  have hm : ∀ q : Rat, place_market_order cl symbol side q =
      (match cl.futures_create_order (marketOrderParams symbol side q) with
       | .ok order => .ok (.payload order)
       | .error e => .ok (.errorDict (pyStr e))) := by
    intro q
    unfold place_market_order
    cases cl.futures_create_order (marketOrderParams symbol side q) with
    | ok p => rfl
    | error e => cases e <;> rfl
  have hl : ∀ q pr : Rat, place_limit_order cl symbol side q pr =
      (match cl.futures_create_order (limitOrderParams symbol side q pr) with
       | .ok order => .ok (.payload order)
       | .error e => .ok (.errorDict (pyStr e))) := by
    intro q pr
    unfold place_limit_order
    cases cl.futures_create_order (limitOrderParams symbol side q pr) with
    | ok p => rfl
    | error e => cases e <;> rfl
  have hs : ∀ q sp lp : Rat, place_stop_limit_order cl symbol side q sp lp =
      (match cl.futures_create_order (stopLimitOrderParams symbol side q sp lp) with
       | .ok order => .ok (.payload order)
       | .error e => .ok (.errorDict (pyStr e))) := by
    intro q sp lp
    unfold place_stop_limit_order
    cases cl.futures_create_order (stopLimitOrderParams symbol side q sp lp) with
    | ok p => rfl
    | error e => cases e <;> rfl
  exact ⟨hm quantity, hl quantity price, hs quantity stop_price limit_price,
    rfl, rfl, rfl, rfl, rfl, rfl, hm (-1), hl 0 (-1), hs (-1) 0 (-1)⟩

/-- C10: the `except Exception` branch of `main` that prints the
"Failed to initialize bot" guidance is unreachable: for every adapter
behaviour, `BasicBot.__init__` either returns a usable bot or terminates
the process with `sys.exit(1)` (whose `SystemExit` is not an `Exception`),
so construction never returns a catchable exception to `main`. -/
theorem init_failure_handler_unreachable (cl : ExchangeClient) :
    (∀ e, main_construct_bot cl ≠ .initFailureHandler e) ∧
    ((BasicBot_init cl).2 = .bot ∨ (BasicBot_init cl).2 = .exited 1) := by
  have hsnd : (BasicBot_init cl).2 = .bot ∨ (BasicBot_init cl).2 = .exited 1 := by
    unfold BasicBot_init
    rcases hv : verify_connection cl with ⟨lv, o⟩
    cases o with
    | none => left; rfl
    | some e => right; rfl
  refine ⟨?_, hsnd⟩
  intro e hcontra
  unfold main_construct_bot at hcontra
  rcases hsnd with h | h <;> rw [h] at hcontra <;> simp at hcontra

end BinanceBot
